import Mathlib

/-!
Verification of the `thyme` CLI (src/cmd/thyme/main.go) against its
natural-language specification.

The repository's only source file is the CLI glue `cmd/thyme/main.go`.
The `thyme` library it calls (`thyme.Snapshot`, `thyme.Stream`,
`thyme.Tracker`, `thyme.NewTracker`, `thyme.Stats`, `thyme.List`) is not
part of this repository checkout, so those parts are modelled from the
spec (each such definition says so in its doc comment).  Everything else
is a shallow embedding of `main.go`: external effects (window capture,
the SQLite database, file creation) are passed in explicitly through an
environment record, and a `panic(err)` in the Go code is modelled as an
`Except.error` outcome.
-/

namespace Thyme

/-- Modelled from the spec: `WindowInfo` (spec section 3) from the thyme
library, which is not under src/.  A normalized description of one window:
title, owning process name, optional desktop id. -/
structure WindowInfo where
  title : String
  processName : String
  desktopId : Option Int
deriving DecidableEq, Repr

/-- Modelled from the spec: a platform window record from the thyme
library (not under src/); `main.go` calls `w.Info()` on each element of
`snap.Windows` to obtain its normalized `WindowInfo`. -/
structure Window where
  info : WindowInfo
deriving DecidableEq, Repr

/-- Modelled from the spec: `Snapshot` (spec section 3) from the thyme
library, which is not under src/: one observation at a timestamp, with
the open windows, the visible windows and the optionally present active
window.  `main.go` reads the fields `snap.Time` and `snap.Windows`. -/
structure Snapshot where
  time : Int
  windows : List Window
  visible : List WindowInfo
  active : Option WindowInfo
deriving DecidableEq, Repr

/-- Modelled from the spec: `Stream` (spec section 3) from the thyme
library, which is not under src/: the sequence of snapshots as decoded
from a stored JSON file. -/
structure Stream where
  snapshots : List Snapshot
deriving DecidableEq, Repr

/-- Modelled from the spec: `thyme.Tracker` (the platform capture
capability, spec section 9), not under src/.  Only its selecting
platform name matters to `main.go`. -/
structure Tracker where
  platform : String
deriving DecidableEq, Repr

/-- Modelled from the spec: `thyme.NewTracker`, not under src/; builds
the tracker for the given platform name. -/
def NewTracker (platform : String) : Tracker := ⟨platform⟩

/-- `getTracker` from main.go lines 187-196: a switch on `runtime.GOOS`
with cases "windows" and "darwin" and a default branch returning the
"linux" tracker; every branch returns a nil error. -/
def getTracker (goos : String) : Except String Tracker :=
  if goos = "windows" then .ok (NewTracker "windows")
  else if goos = "darwin" then .ok (NewTracker "darwin")
  else .ok (NewTracker "linux")

/-- Rendering of one window for `json.Marshal` (see `marshal`). -/
def Window.render (w : Window) : String :=
  "\x7b\"Title\":\"" ++ w.info.title ++ "\",\"Name\":\"" ++ w.info.processName ++ "\"\x7d"

/-- Models `json.Marshal(snap)` from main.go line 69.  `json.Marshal`
on these field types is total; the exact JSON text is immaterial to the
claims, only that it is a deterministic function of the snapshot. -/
def marshal (s : Snapshot) : String :=
  "\x7b\"Time\":" ++ toString s.time ++ ",\"Windows\":[" ++
    String.intercalate "," (s.windows.map Window.render) ++ "]\x7d"

/-- The SQLite table `data(time TIMESTAMP PRIMARY KEY, value TEXT)`
created on main.go line 73, modelled as its rows in rowid (insertion)
order. -/
abbrev DataTable := List (Int × String)

/-- `INSERT INTO data(time, value) values(?,?)` (main.go lines 77-81):
`time` is the primary key, so an insert whose timestamp is already
present fails with a constraint violation and leaves the table
unchanged; otherwise the row is appended with the next rowid. -/
def insertRow (db : DataTable) (t : Int) (v : String) : Except String DataTable :=
  if db.any (fun r => r.1 = t) then
    .error "UNIQUE constraint failed: data.time"
  else
    .ok (db ++ [(t, v)])

/-- The fixed database path computed on main.go line 64:
`os.Getenv("HOME") + "/.thyme/thyme.db"`. -/
def dbFilename (home : String) : String := home ++ "/.thyme/thyme.db"

/-- The strings written to the output file by main.go lines 92-103:
a labelled JSON object wrapping the scanned `value` column, with the
first value written after an unchecked `rows.Next()`/`rows.Scan` (an
empty row set would write the zero string) and the remaining values
each preceded by a comma. -/
def exportLines (vals : List String) : List String :=
  match vals with
  | [] => ["\x7b\n", "\"Snapshots\" : [\n", "", "]\n", "\x7d"]
  | v :: rest =>
      ["\x7b\n", "\"Snapshots\" : [\n", v] ++
        (rest.foldr (fun w acc => "," :: w :: acc) []) ++ ["]\n", "\x7d"]

/-- `TrackCmd` from main.go lines 48-50: the `-o` output file flag. -/
structure TrackCmd where
  out : String
deriving DecidableEq, Repr

/-- The external effects consumed by `TrackCmd.Execute`: the detected
operating system, the HOME environment variable, the result of
`t.Snap()`, the error results of the fallible database calls, the error
result of `os.Create` on the output file, and the current contents of
the `data` table. -/
structure TrackEnv where
  goos : String
  home : String
  snapResult : Except String Snapshot
  sqlOpenErr : Option String
  createTableErr : Option String
  prepareErr : Option String
  createFileErr : Option String
  db : DataTable
deriving Repr

/-- The observable result of one `track` invocation: the outcome
(`Except.error e` models `panic(err)`; `Except.ok ()` models
`return nil`), the database contents afterwards, the database path that
was opened, the rows scanned for the export (empty when the export
branch did not run), and the strings written to the output file
(`none` when no output file was successfully created). -/
structure TrackResult where
  outcome : Except String Unit
  db : DataTable
  dbPath : String
  exported : DataTable
  fileWritten : Option (List String)
deriving Repr

/-- Main.go lines 54-84: everything in `TrackCmd.Execute` up to and
including the `INSERT`: get the tracker, capture a snapshot, open the
database at the fixed path, marshal the snapshot, create the table,
prepare the insert, and execute it.  Every error on this prefix is
`panic(err)`, modelled as `Except.error`. -/
def trackInsert (env : TrackEnv) : Except String DataTable :=
  match getTracker env.goos with
  | .error e => .error e
  | .ok _ =>
    match env.snapResult with
    | .error e => .error e
    | .ok snap =>
      match env.sqlOpenErr with
      | some e => .error e
      | none =>
        match env.createTableErr with
        | some e => .error e
        | none =>
          match env.prepareErr with
          | some e => .error e
          | none => insertRow env.db snap.time (marshal snap)

/-- `TrackCmd.Execute` from main.go lines 54-108.  After the insert, if
`-o` was given (lines 85-105) the code runs `SELECT value FROM data`
(no ORDER BY: rows come back in rowid, i.e. insertion, order), calls
`os.Create` and DISCARDS its error, writes the wrapper and the values
ignoring every write error, and finally returns nil unconditionally. -/
def TrackCmd.Execute (c : TrackCmd) (env : TrackEnv) : TrackResult :=
  match trackInsert env with
  | .error e =>
      { outcome := .error e, db := env.db, dbPath := dbFilename env.home,
        exported := [], fileWritten := none }
  | .ok db' =>
      if c.out = "" then
        { outcome := .ok (), db := db', dbPath := dbFilename env.home,
          exported := [], fileWritten := none }
      else
        match env.createFileErr with
        | some _ =>
            { outcome := .ok (), db := db', dbPath := dbFilename env.home,
              exported := db', fileWritten := none }
        | none =>
            { outcome := .ok (), db := db', dbPath := dbFilename env.home,
              exported := db', fileWritten := some (exportLines (db'.map Prod.snd)) }

/-- A per-key accumulation of durations (activeDuration, openDuration,
visibleDuration), keyed by (processName, title); an association list in
first-touched order. -/
abbrev Agg := List ((String × String) × (Int × Int × Int))

/-- Modelled from the spec: aggregation keys windows by
(processName, title) (spec section 4.3 step 6). -/
def key (i : WindowInfo) : String × String := (i.processName, i.title)

/-- Add a duration delta to one key of the accumulation, inserting the
key at the end on first touch. -/
def addDur (m : Agg) (k : String × String) (d : Int × Int × Int) : Agg :=
  match m with
  | [] => [(k, d)]
  | (k', d') :: rest =>
      if k' = k then (k', (d'.1 + d.1, d'.2.1 + d.2.1, d'.2.2 + d.2.2)) :: rest
      else (k', d') :: addDur rest k d

/-- Modelled from the spec: one step of interval attribution (spec
section 4.3 steps 3-5): the interval dt is added to the openDuration of
every open window, the visibleDuration of every visible window, and the
activeDuration of the active window when present. -/
def attributeInterval (m : Agg) (s : Snapshot) (dt : Int) : Agg :=
  let m1 := s.windows.foldl (fun a w => addDur a (key w.info) (0, dt, 0)) m
  let m2 := s.visible.foldl (fun a i => addDur a (key i) (0, 0, dt)) m1
  match s.active with
  | none => m2
  | some i => addDur m2 (key i) (dt, 0, 0)

/-- Modelled from the spec: the interval-attribution fold over
consecutive snapshot pairs (spec section 4.3 step 2): each interval
dt = S[i+1].time - S[i].time is attributed to the state of S[i]. -/
def aggregateFrom (acc : Agg) : List Snapshot → Agg
  | s1 :: s2 :: rest => aggregateFrom (attributeInterval acc s1 (s2.time - s1.time)) (s2 :: rest)
  | _ => acc

/-- Modelled from the spec: `thyme.Stats`, not under src/.  Aggregates a
stream by interval attribution (spec section 4.3); a stream with fewer
than two snapshots yields the empty result and this is not an error
(spec section 4.3 step 1, section 7 EmptyStream). -/
def Stats (stream : Stream) : Except String Agg :=
  .ok (aggregateFrom [] stream.snapshots)

/-- `ShowCmd` from main.go lines 112-115: the `-i` input file flag and
the `-w` mode selector. -/
structure ShowCmd where
  In : String
  What : String
deriving DecidableEq, Repr

/-- The externally observable display actions of one `show`
invocation. -/
inductive ShowAction where
  | printWindowInfo (i : WindowInfo)
  | printStream (s : Stream)
  | listStream (s : Stream)
  | statsResult (a : Agg)
deriving DecidableEq, Repr

/-- The external effects consumed by `ShowCmd.Execute`: the result of
decoding a `Snapshot` from stdin, the error result of `os.Open` on the
input file, and the result of decoding a `Stream` from that file. -/
structure ShowEnv where
  stdinSnap : Except String Snapshot
  openErr : Option String
  decodeStream : Except String Stream
deriving Repr

/-- `ShowCmd.Execute` from main.go lines 119-152.  With no input file,
exactly one `Snapshot` is decoded from stdin and each window's info is
printed (lines 120-127); the `-w` selector is never consulted on this
path.  With an input file, the file is opened and a `Stream` decoded —
any failure is returned before anything is displayed — then the switch
on `-w` runs `thyme.Stats` for "stats" and falls through to printing
the stream and `thyme.List` for "list" and every other value. -/
def ShowCmd.Execute (c : ShowCmd) (env : ShowEnv) : Except String (List ShowAction) :=
  if c.In = "" then
    match env.stdinSnap with
    | .error e => .error e
    | .ok snap => .ok (snap.windows.map (fun w => ShowAction.printWindowInfo w.info))
  else
    match env.openErr with
    | some e => .error e
    | none =>
      match env.decodeStream with
      | .error e => .error e
      | .ok stream =>
        if c.What = "stats" then
          match Stats stream with
          | .error e => .error e
          | .ok agg => .ok [ShowAction.statsResult agg]
        else
          .ok [ShowAction.printStream stream, ShowAction.listStream stream]

/-! Concrete fixtures used to instantiate the theorems below. -/

/-- A minimal captured snapshot with timestamp 5. -/
def snap5 : Snapshot := ⟨5, [], [], none⟩

/-- A track environment whose database already holds a row with the
same timestamp (5) that the new capture carries. -/
def envC1 : TrackEnv :=
  { goos := "linux", home := "/home/u", snapResult := .ok snap5,
    sqlOpenErr := none, createTableErr := none, prepareErr := none,
    createFileErr := none, db := [(5, "old")] }

/-- A track environment where capture fails. -/
def envC5 : TrackEnv :=
  { goos := "linux", home := "/home/u",
    snapResult := .error "no window manager reachable",
    sqlOpenErr := none, createTableErr := none, prepareErr := none,
    createFileErr := none, db := [(1, "a")] }

/-- A track environment where `os.Create` on the output file fails. -/
def envC3 : TrackEnv :=
  { goos := "linux", home := "/home/u", snapResult := .ok snap5,
    sqlOpenErr := none, createTableErr := none, prepareErr := none,
    createFileErr := some "open /nonexistent/out.json: permission denied",
    db := [] }

/-- A track environment whose database already holds a later timestamp
(10) than the new capture (5): the rows end up stored out of timestamp
order. -/
def envC6 : TrackEnv :=
  { goos := "linux", home := "/home/u", snapResult := .ok snap5,
    sqlOpenErr := none, createTableErr := none, prepareErr := none,
    createFileErr := none, db := [(10, "old")] }

/-- A track environment whose database holds one earlier timestamp (1)
than the new capture (5): the append keeps the rows ascending. -/
def envC6w : TrackEnv :=
  { goos := "linux", home := "/home/u", snapResult := .ok snap5,
    sqlOpenErr := none, createTableErr := none, prepareErr := none,
    createFileErr := none, db := [(1, "a")] }

/-- A show environment whose input file decodes to the empty stream. -/
def envC2 : ShowEnv :=
  { stdinSnap := .error "unused", openErr := none, decodeStream := .ok ⟨[]⟩ }

/-- A show environment whose input file fails to decode. -/
def envC4 : ShowEnv :=
  { stdinSnap := .error "unused", openErr := none,
    decodeStream := .error "invalid character at offset 3" }

/-- A window fixture for the stdin show path. -/
def winA : Window := ⟨⟨"notes.txt", "editor", none⟩⟩

/-- A snapshot holding one window, decoded from stdin. -/
def snapC9 : Snapshot := ⟨42, [winA], [], none⟩

/-- A show environment whose stdin decodes to `snapC9`. -/
def envC9 : ShowEnv :=
  { stdinSnap := .ok snapC9, openErr := none, decodeStream := .error "unused" }

/-! Helper lemmas. -/

/-- `getTracker` reduces to `.ok` on every input (helper). -/
theorem getTracker_reduce (goos : String) :
    getTracker goos =
      .ok (NewTracker (if goos = "windows" then "windows"
        else if goos = "darwin" then "darwin" else "linux")) := by
  unfold getTracker
  split_ifs <;> rfl

/-- When capture and all database-plumbing calls succeed, the track
prefix reduces to the single `INSERT`. -/
theorem trackInsert_eq (env : TrackEnv) (snap : Snapshot)
    (hsnap : env.snapResult = .ok snap) (h1 : env.sqlOpenErr = none)
    (h2 : env.createTableErr = none) (h3 : env.prepareErr = none) :
    trackInsert env = insertRow env.db snap.time (marshal snap) := by
  unfold trackInsert
  rw [getTracker_reduce, hsnap, h1, h2, h3]

/-- When capture fails, the track prefix fails with that very error. -/
theorem trackInsert_captureErr (env : TrackEnv) (e : String)
    (hsnap : env.snapResult = .error e) : trackInsert env = .error e := by
  unfold trackInsert
  rw [getTracker_reduce, hsnap]

/-- An insert whose timestamp is already a key of the table fails with
the uniqueness violation. -/
theorem insertRow_dup (db : DataTable) (t : Int) (v : String)
    (h : t ∈ db.map Prod.fst) :
    insertRow db t v = .error "UNIQUE constraint failed: data.time" := by
  have hb : db.any (fun r => r.1 = t) = true := by
    simp only [List.any_eq_true, decide_eq_true_eq]
    obtain ⟨r, hr, hrt⟩ := List.mem_map.mp h
    exact ⟨r, hr, hrt⟩
  simp [insertRow, hb]

/-- An insert with a fresh timestamp appends the row at the end. -/
theorem insertRow_fresh (db : DataTable) (t : Int) (v : String)
    (h : t ∉ db.map Prod.fst) :
    insertRow db t v = .ok (db ++ [(t, v)]) := by
  have hb : db.any (fun r => r.1 = t) = false := by
    rw [List.any_eq_false]
    intro r hr hrt
    rw [decide_eq_true_eq] at hrt
    exact h (List.mem_map.mpr ⟨r, hr, hrt⟩)
  simp [insertRow, hb]

/-! The claims. -/

/-- C1: For every track invocation, appending a snapshot whose timestamp
already exists in the stored stream is rejected (the insert fails,
signaling a duplicate-timestamp condition) and the previously stored
record for that timestamp is left unchanged, so after a second append
with the same timestamp the stored stream length is unchanged. -/
theorem track_duplicate_timestamp (c : TrackCmd) (env : TrackEnv) (snap : Snapshot)
    (hsnap : env.snapResult = .ok snap) (h1 : env.sqlOpenErr = none)
    (h2 : env.createTableErr = none) (h3 : env.prepareErr = none)
    (hdup : snap.time ∈ env.db.map Prod.fst) :
    (TrackCmd.Execute c env).outcome =
        .error "UNIQUE constraint failed: data.time" ∧
      (TrackCmd.Execute c env).db = env.db ∧
      ((TrackCmd.Execute c env).db).length = env.db.length := by
  have hins : trackInsert env = .error "UNIQUE constraint failed: data.time" := by
    rw [trackInsert_eq env snap hsnap h1 h2 h3, insertRow_dup _ _ _ hdup]
  unfold TrackCmd.Execute
  rw [hins]
  exact ⟨rfl, rfl, rfl⟩

theorem track_duplicate_timestamp_witness :
    (TrackCmd.Execute ⟨""⟩ envC1).outcome =
        .error "UNIQUE constraint failed: data.time" ∧
      (TrackCmd.Execute ⟨""⟩ envC1).db = envC1.db ∧
      ((TrackCmd.Execute ⟨""⟩ envC1).db).length = envC1.db.length :=
  track_duplicate_timestamp ⟨""⟩ envC1 snap5 rfl rfl rfl rfl (by decide)

/-- C2: For every show invocation with an input file, if the mode
selector equals "stats" the aggregated statistics are produced, and for
every other mode selector value (including "list" and any unrecognized
string) the chronological listing behavior is produced instead of an
error. -/
theorem show_mode_dispatch (c : ShowCmd) (env : ShowEnv) (stream : Stream)
    (hin : c.In ≠ "") (hopen : env.openErr = none)
    (hdec : env.decodeStream = .ok stream) :
    (c.What = "stats" →
      ShowCmd.Execute c env =
        .ok [ShowAction.statsResult (aggregateFrom [] stream.snapshots)]) ∧
    (c.What ≠ "stats" →
      ShowCmd.Execute c env =
        .ok [ShowAction.printStream stream, ShowAction.listStream stream]) := by
  constructor
  · intro h
    simp only [ShowCmd.Execute, if_neg hin, hopen, hdec, if_pos h, Stats]
  · intro h
    simp only [ShowCmd.Execute, if_neg hin, hopen, hdec, if_neg h]

theorem show_mode_dispatch_witness :
    ("statz" = "stats" →
      ShowCmd.Execute ⟨"data.json", "statz"⟩ envC2 =
        .ok [ShowAction.statsResult (aggregateFrom [] (Stream.mk []).snapshots)]) ∧
    ("statz" ≠ "stats" →
      ShowCmd.Execute ⟨"data.json", "statz"⟩ envC2 =
        .ok [ShowAction.printStream ⟨[]⟩, ShowAction.listStream ⟨[]⟩]) :=
  show_mode_dispatch ⟨"data.json", "statz"⟩ envC2 ⟨[]⟩ (by decide) rfl rfl

/-- C3: the claim says a failure to create or write the output file
aborts the track invocation with an error and never leaves output that
could pass for a complete export; the code instead discards the
`os.Create` error (and every write error) and returns nil.  This
theorem evaluates the code at the failing input: `os.Create` fails, yet
the invocation reports success. -/
theorem track_write_failure_reports_success :
    (TrackCmd.Execute ⟨"/nonexistent/out.json"⟩ envC3).outcome = .ok () ∧
      (TrackCmd.Execute ⟨"/nonexistent/out.json"⟩ envC3).fileWritten = none :=
  ⟨rfl, rfl⟩

/-- C4: For every show invocation with an input file, if decoding the
stored stream fails (a malformed record), the whole load fails and the
error is returned to the caller; no listing and no statistics output is
produced from the partially decoded data. -/
theorem show_decode_failure (c : ShowCmd) (env : ShowEnv) (e : String)
    (hin : c.In ≠ "") (hopen : env.openErr = none)
    (hdec : env.decodeStream = .error e) :
    ShowCmd.Execute c env = .error e := by
  simp only [ShowCmd.Execute, if_neg hin, hopen, hdec]

theorem show_decode_failure_witness :
    ShowCmd.Execute ⟨"data.json", "stats"⟩ envC4 =
      .error "invalid character at offset 3" :=
  show_decode_failure ⟨"data.json", "stats"⟩ envC4
    "invalid character at offset 3" (by decide) rfl rfl

/-- C5: For every track invocation, if capture fails the error is
surfaced to the caller unchanged (here: the panic aborts the invocation
carrying that very error): the invocation does not retry, does not
silently skip the sample, and appends nothing to the stored stream. -/
theorem track_capture_failure (c : TrackCmd) (env : TrackEnv) (e : String)
    (hsnap : env.snapResult = .error e) :
    (TrackCmd.Execute c env).outcome = .error e ∧
      (TrackCmd.Execute c env).db = env.db ∧
      (TrackCmd.Execute c env).exported = [] ∧
      (TrackCmd.Execute c env).fileWritten = none := by
  have hins := trackInsert_captureErr env e hsnap
  unfold TrackCmd.Execute
  rw [hins]
  exact ⟨rfl, rfl, rfl, rfl⟩

theorem track_capture_failure_witness :
    (TrackCmd.Execute ⟨"out.json"⟩ envC5).outcome =
        .error "no window manager reachable" ∧
      (TrackCmd.Execute ⟨"out.json"⟩ envC5).db = envC5.db ∧
      (TrackCmd.Execute ⟨"out.json"⟩ envC5).exported = [] ∧
      (TrackCmd.Execute ⟨"out.json"⟩ envC5).fileWritten = none :=
  track_capture_failure ⟨"out.json"⟩ envC5 "no window manager reachable" rfl

/-- C6 (counterexample): a track invocation on a database whose stored
row has timestamp 10, capturing a snapshot with timestamp 5, exports
the rows in insertion order [10, 5] — not ascending timestamp order. -/
theorem track_export_unsorted_counterexample :
    (TrackCmd.Execute ⟨"/tmp/out.json"⟩ envC6).outcome = .ok () ∧
      (TrackCmd.Execute ⟨"/tmp/out.json"⟩ envC6).exported.map Prod.fst = [10, 5] ∧
      ¬ List.Sorted (· < ·)
        ((TrackCmd.Execute ⟨"/tmp/out.json"⟩ envC6).exported.map Prod.fst) :=
  ⟨rfl, rfl, by decide⟩

/-- C6 (amended): the export writes the rows in insertion (rowid)
order, the newly captured snapshot's record last (the SELECT has no
ORDER BY); the export is in ascending timestamp order when every stored
append happened in ascending timestamp order. -/
theorem track_export_insertion_order (c : TrackCmd) (env : TrackEnv) (snap : Snapshot)
    (hc : c.out ≠ "") (hsnap : env.snapResult = .ok snap)
    (h1 : env.sqlOpenErr = none) (h2 : env.createTableErr = none)
    (h3 : env.prepareErr = none) (hfresh : snap.time ∉ env.db.map Prod.fst) :
    (TrackCmd.Execute c env).exported.map Prod.fst =
        env.db.map Prod.fst ++ [snap.time] ∧
      (List.Sorted (· < ·) (env.db.map Prod.fst ++ [snap.time]) →
        List.Sorted (· < ·) ((TrackCmd.Execute c env).exported.map Prod.fst)) := by
  have hins : trackInsert env = .ok (env.db ++ [(snap.time, marshal snap)]) := by
    rw [trackInsert_eq env snap hsnap h1 h2 h3, insertRow_fresh _ _ _ hfresh]
  have hexp : (TrackCmd.Execute c env).exported =
      env.db ++ [(snap.time, marshal snap)] := by
    unfold TrackCmd.Execute
    rw [hins]
    simp only [if_neg hc]
    cases env.createFileErr <;> rfl
  constructor
  · rw [hexp, List.map_append]
    rfl
  · intro hs
    rw [hexp, List.map_append]
    exact hs

theorem track_export_insertion_order_witness :
    (TrackCmd.Execute ⟨"/tmp/out.json"⟩ envC6w).exported.map Prod.fst =
        envC6w.db.map Prod.fst ++ [(5 : Int)] ∧
      (List.Sorted (· < ·) (envC6w.db.map Prod.fst ++ [(5 : Int)]) →
        List.Sorted (· < ·)
          ((TrackCmd.Execute ⟨"/tmp/out.json"⟩ envC6w).exported.map Prod.fst)) :=
  track_export_insertion_order ⟨"/tmp/out.json"⟩ envC6w snap5
    (by decide) rfl rfl rfl rfl (by decide)

/-- C7: For every track invocation, the snapshot is stored into a
single database file at the fixed path HOME + "/.thyme/thyme.db"; the
storage location is not a parameter, and the value of the -o output
flag changes neither which database file is written nor the resulting
database contents. -/
theorem track_db_location_fixed (c c' : TrackCmd) (env : TrackEnv) :
    (TrackCmd.Execute c env).dbPath = env.home ++ "/.thyme/thyme.db" ∧
      (TrackCmd.Execute c' env).dbPath = (TrackCmd.Execute c env).dbPath ∧
      (TrackCmd.Execute c' env).db = (TrackCmd.Execute c env).db := by
  cases h : trackInsert env with
  | error e => simp [TrackCmd.Execute, h, dbFilename]
  | ok db' =>
    by_cases hc : c.out = "" <;> by_cases hc' : c'.out = "" <;>
      cases hf : env.createFileErr <;>
      simp [TrackCmd.Execute, h, hc, hc', hf, dbFilename]

/-- C8: For every stream with zero snapshots or exactly one snapshot,
aggregation in stats mode yields an empty result and does not signal an
error. -/
theorem stats_small_stream (stream : Stream)
    (h : stream.snapshots.length ≤ 1) : Stats stream = .ok [] := by
  obtain ⟨l⟩ := stream
  cases l with
  | nil => rfl
  | cons a t =>
    cases t with
    | nil => rfl
    | cons b t' =>
      simp only [List.length_cons] at h
      omega

theorem stats_small_stream_witness : Stats ⟨[]⟩ = .ok [] :=
  stats_small_stream ⟨[]⟩ (by decide)

/-- C9: For every show invocation where no input file is given, exactly
one Snapshot (not a Stream) is decoded from stdin and each of its
windows' info is printed, and the -w mode selector is ignored entirely
in this path: stats mode is unreachable for stdin input. -/
theorem show_stdin_path (w₁ w₂ : String) (env : ShowEnv) (snap : Snapshot)
    (h : env.stdinSnap = .ok snap) :
    ShowCmd.Execute ⟨"", w₁⟩ env =
        .ok (snap.windows.map (fun x => ShowAction.printWindowInfo x.info)) ∧
      ShowCmd.Execute ⟨"", w₁⟩ env = ShowCmd.Execute ⟨"", w₂⟩ env := by
  constructor <;> simp [ShowCmd.Execute, h]

theorem show_stdin_path_witness :
    ShowCmd.Execute ⟨"", "stats"⟩ envC9 =
        .ok (snapC9.windows.map (fun x => ShowAction.printWindowInfo x.info)) ∧
      ShowCmd.Execute ⟨"", "stats"⟩ envC9 = ShowCmd.Execute ⟨"", "list"⟩ envC9 :=
  show_stdin_path "stats" "list" envC9 snapC9 rfl

/-- C10: getTracker is total and never returns a non-nil error: for
GOOS equal to "windows" or "darwin" it returns the tracker for that
platform, and for every other operating system value it returns the
"linux" tracker rather than failing. -/
theorem getTracker_total (goos : String) :
    getTracker goos =
      .ok (NewTracker (if goos = "windows" then "windows"
        else if goos = "darwin" then "darwin" else "linux")) := by
  unfold getTracker
  split_ifs <;> rfl

end Thyme
